import Mathlib

/-!
Verification development for the zero-kernel build orchestrator.

The Python modules under `zkb/` are shallowly embedded below:

* `zkb/enums.py` — the enum classes and their `from_string` static methods.
  Python enum members of distinct classes are never equal (enum equality is
  identity-based), which we capture with the wrapper type `PyEnumVal`: each
  enum class is a separate constructor, so cross-class comparison is decidably
  false, exactly as in CPython.
* `zkb/clients/pa.py` — `ParanoidAndroidApiClient.map_codename`.
* `zkb/configs/argument.py` — `ArgumentConfig.check_settings`; the process
  exit of `sys.exit(1)` is modelled as returning `some 1`, and a run that
  falls through all checks returns `none`. External facts that the method
  consults (host platform, `apt --version`, the device manifest keys, and
  `Path.is_file`) are fields of a `Host` record.
* `zkb/__main__.py` — `main` is modelled as `mainRun`, producing the ordered
  list of observable events (directory change, environment-variable store,
  container-session lifecycle, pipeline command execution) together with the
  process exit code (`none` when `main` returns normally). The version
  parsing of `pyproject.toml` is embedded verbatim as `kversionOf` (the
  `str.split` chain of the source). Path absolutization of `--defconfig`
  (a no-op on the modelled observables) is omitted.

Components referenced by the claims but absent from the sources at hand
(`zkb.core.KernelBuilder`, `zkb.core.AssetsCollector`, `zkb.managers.
ResourceManager`) are modelled from the specification and are marked as such
in their doc comments.
-/

/-- `EnumChroot` from `zkb/enums.py`. -/
inductive EnumChroot
  | FULL
  | MINIMAL
deriving DecidableEq

/-- `EnumCommand` from `zkb/enums.py`. -/
inductive EnumCommand
  | KERNEL
  | ASSETS
  | BUNDLE
deriving DecidableEq

/-- `EnumContainerEnvironment` from `zkb/enums.py`. -/
inductive EnumContainerEnvironment
  | DOCKER
  | PODMAN
deriving DecidableEq

/-- `EnumEnvironment` from `zkb/enums.py`. -/
inductive EnumEnvironment
  | LOCAL
  | DOCKER
  | PODMAN
deriving DecidableEq

/-- `EnumPackageType` from `zkb/enums.py`. -/
inductive EnumPackageType
  | CONAN
  | SLIM
  | FULL
deriving DecidableEq

/-- `EnumKernelBase` from `zkb/enums.py`. -/
inductive EnumKernelBase
  | LOS
  | PA
  | X
  | AOSP
deriving DecidableEq

/-- A Python enum member, tagged by its enum class. Python enum equality is
identity-based, so members of distinct classes always compare unequal; the
derived `DecidableEq` on this sum reproduces that. -/
inductive PyEnumVal
  | cmd (c : EnumCommand)
  | env (e : EnumEnvironment)
  | cenv (e : EnumContainerEnvironment)
  | base (b : EnumKernelBase)
  | chroot (c : EnumChroot)
  | pkg (p : EnumPackageType)
deriving DecidableEq

/-- Python `EnumCommand[s]`: lookup of an `EnumCommand` member by NAME
(member names are the upper-case identifiers). `none` models `KeyError`. -/
def enumCommandItem (s : String) : Option EnumCommand :=
  if s = "KERNEL" then some EnumCommand.KERNEL
  else if s = "ASSETS" then some EnumCommand.ASSETS
  else if s = "BUNDLE" then some EnumCommand.BUNDLE
  else none

/-- `EnumEnvironment.from_string` from `zkb/enums.py`: it returns
`EnumCommand[s]` (not an `EnumEnvironment` member); `none` models the
re-raised `ValueError`. -/
def EnumEnvironment.from_string (s : String) : Option PyEnumVal :=
  (enumCommandItem s).map PyEnumVal.cmd

/-- `EnumKernelBase.from_string` from `zkb/enums.py`: its body is identical
to `EnumEnvironment.from_string` and also returns `EnumCommand[s]`. -/
def EnumKernelBase.from_string (s : String) : Option PyEnumVal :=
  (enumCommandItem s).map PyEnumVal.cmd

/-- `choices=tuple(EnumEnvironment)` for `--build-env` in
`parse_args` (`zkb/__main__.py`). -/
def benvChoices : List PyEnumVal :=
  [PyEnumVal.env EnumEnvironment.LOCAL,
   PyEnumVal.env EnumEnvironment.DOCKER,
   PyEnumVal.env EnumEnvironment.PODMAN]

/-- `choices=tuple(EnumKernelBase)` for `--base` in
`parse_args` (`zkb/__main__.py`). -/
def baseChoices : List PyEnumVal :=
  [PyEnumVal.base EnumKernelBase.LOS,
   PyEnumVal.base EnumKernelBase.PA,
   PyEnumVal.base EnumKernelBase.X,
   PyEnumVal.base EnumKernelBase.AOSP]

/-- Client state of `ParanoidAndroidApiClient` (`zkb/clients/pa.py`): the
class attributes declared there plus the `codename` attribute inherited from
the `RomApiClient` base and read by `map_codename`. -/
structure ParanoidAndroidApiClient where
  endpoint : String := "https://api.paranoidandroid.co/updates/{}"
  json_key : String := "updates"
  rom_name : EnumKernelBase := EnumKernelBase.PA
  codename : String
deriving DecidableEq

/-- `ParanoidAndroidApiClient.map_codename` (`zkb/clients/pa.py`): the
`specials` dict holds `dumpling -> oneplus5t` and `cheeseburger -> oneplus5`;
any codename outside it is returned unchanged. -/
def ParanoidAndroidApiClient.map_codename (self : ParanoidAndroidApiClient) : String :=
  if self.codename = "dumpling" then "oneplus5t"
  else if self.codename = "cheeseburger" then "oneplus5"
  else self.codename

/-- The argument storage of `ArgumentConfig` (`zkb/configs/argument.py`).
Optional boolean flags default to `False` in the source and are modelled as
`Bool`; `Path` values are modelled as strings. -/
structure ArgumentConfig where
  benv : EnumEnvironment
  command : EnumCommand
  codename : String
  base : String
  lkv : Option String := none
  chroot : Option String := none
  package_type : Option EnumPackageType := none
  clean_kernel : Bool := false
  clean_assets : Bool := false
  clean_image : Bool := false
  rom_only : Bool := false
  conan_upload : Bool := false
  ksu : Bool := false
  defconfig : Option String := none

/-- External facts consulted by `check_settings` and `main`:
`platform.system() == "Linux"`, success of `ccmd.launch("apt --version")`,
the key set of `manifests/devices.json`, `Path.is_file`, and the text of
`pyproject.toml`. -/
structure Host where
  isLinux : Bool
  aptOk : Bool
  devices : List String
  isFile : String → Bool
  pyproject : String

/-- Second half of `ArgumentConfig.check_settings`
(`zkb/configs/argument.py`): the device-manifest membership check, the
Conan-upload check for the `bundle` command, and the defconfig-file check,
in source order. `some 1` models `sys.exit(1)`. -/
def checkSettingsRest (cfg : ArgumentConfig) (h : Host) : Option Nat :=
  if cfg.codename ∉ h.devices then some 1
  else if cfg.command = EnumCommand.BUNDLE
          ∧ cfg.package_type ≠ some EnumPackageType.CONAN
          ∧ cfg.conan_upload = true then some 1
  else match cfg.defconfig with
       | some d => if h.isFile d then none else some 1
       | none => none

/-- `ArgumentConfig.check_settings` (`zkb/configs/argument.py`): when the
build environment is `LOCAL` and the command is `kernel` or `bundle`, the
host must be Linux and `apt --version` must succeed, each failure exiting
with status 1; then the checks of `checkSettingsRest` run. -/
def check_settings (cfg : ArgumentConfig) (h : Host) : Option Nat :=
  if cfg.benv = EnumEnvironment.LOCAL
     ∧ (cfg.command = EnumCommand.KERNEL ∨ cfg.command = EnumCommand.BUNDLE) then
    if h.isLinux = false then some 1
    else if h.aptOk = false then some 1
    else checkSettingsRest cfg h
  else checkSettingsRest cfg h

/-- Observable events of one `main` invocation (`zkb/__main__.py`). -/
inductive Event
  | chdir
  | cleanRootDir
  | envSet (name v : String)
  | containerStart
  | containerExec
  | containerTeardown
  | runKernelCommand
  | runAssetsCommand
  | runBundleCommand
deriving DecidableEq

/-- Whether an event is an environment-variable store. -/
def Event.isEnvSet : Event → Bool
  | Event.envSet _ _ => true
  | _ => false

/-- Whether an event is a pipeline execution (a container session relaying
pipeline commands, or a direct command execution on the host). -/
def Event.isPipeline : Event → Bool
  | Event.containerStart => true
  | Event.containerExec => true
  | Event.containerTeardown => true
  | Event.runKernelCommand => true
  | Event.runAssetsCommand => true
  | Event.runBundleCommand => true
  | _ => false

/-- Whether `sep` begins the character sequence `s`. -/
def leadsWith : List Char → List Char → Bool
  | [], _ => true
  | _ :: _, [] => false
  | a :: as, b :: bs => if a = b then leadsWith as bs else false

/-- Python `str.split` with a non-empty separator, on character lists:
chunks between the non-overlapping occurrences of `sep`, scanned left to
right. `fuel` bounds the recursion; every step consumes at least one
character, so any fuel beyond the input length is enough. -/
def pySplitGo (sep : List Char) : Nat → List Char → List Char → List (List Char)
  | 0, s, acc => [acc.reverse ++ s]
  | _ + 1, [], acc => [acc.reverse]
  | fuel + 1, c :: rest, acc =>
    if leadsWith sep (c :: rest) = true then
      acc.reverse :: pySplitGo sep fuel (List.drop sep.length (c :: rest)) []
    else
      pySplitGo sep fuel rest (c :: acc)

/-- Python `s.split(sep)` for a non-empty `sep`. -/
def pySplit (s sep : String) : List String :=
  (pySplitGo sep.data (s.data.length + 1) s.data []).map String.mk

/-- The `KVERSION` parse in `main` (`zkb/__main__.py` line 210), embedded
from the source chain `read().split('version = "')[1].split('"')[0]`: the
chunk after the first occurrence of the separator, cut at the next double
quote. An absent separator makes the Python subscript `[1]` raise
`IndexError` (modelled as `none`); `str.split` never returns an empty list,
so the final `[0]` always exists. -/
def kversionOf (s : String) : Option String :=
  match (pySplit s "version = \"").tail.head? with
  | some afterSep => some ((pySplit afterSep "\"").headD "")
  | none => none

/-- The branch that `main`'s `match args.benv` takes. A Python `match` value
pattern compares with `==`, so the subject (an `EnumEnvironment` member) is
compared against `EnumContainerEnvironment.DOCKER | PODMAN` and then against
`EnumEnvironment.LOCAL`; no arm matching means the statement is a no-op. -/
inductive DispatchBranch
  | containerSession
  | localHost
  | noArm
deriving DecidableEq

/-- `main`'s dispatch on `args.benv` (`zkb/__main__.py` lines 222-227),
with the identity-based cross-enum equality of `PyEnumVal`. -/
def dispatchBranch (benv : PyEnumVal) : DispatchBranch :=
  if benv = PyEnumVal.cenv EnumContainerEnvironment.DOCKER
     ∨ benv = PyEnumVal.cenv EnumContainerEnvironment.PODMAN then
    DispatchBranch.containerSession
  else if benv = PyEnumVal.env EnumEnvironment.LOCAL then
    DispatchBranch.localHost
  else
    DispatchBranch.noArm

/-- Events of the inner `match args.command` in `main`'s local branch. -/
def commandEvents : EnumCommand → List Event
  | EnumCommand.KERNEL => [Event.runKernelCommand]
  | EnumCommand.ASSETS => [Event.runAssetsCommand]
  | EnumCommand.BUNDLE => [Event.runBundleCommand]

/-- `main` (`zkb/__main__.py`): change into the root directory; on
`--clean`, clean it and exit 0; store `KVERSION` (an uncaught `IndexError`
from the parse exits the interpreter with status 1); run `check_settings`
(whose `sys.exit(1)` ends the process); finally dispatch on `args.benv`.
The container branch is the scoped `with GenericContainerEngine(...)` block
relaying the command, whose engine is external to the configs/commands
sources and is represented by its session lifecycle events. The result is
the event list and the exit status (`none`: `main` returned normally). -/
def mainRun (cfg : ArgumentConfig) (cleanRootFlag : Bool) (h : Host) :
    List Event × Option Nat :=
  if cleanRootFlag then ([Event.chdir, Event.cleanRootDir], some 0)
  else
    match kversionOf h.pyproject with
    | none => ([Event.chdir], some 1)
    | some v =>
      let pre := [Event.chdir, Event.envSet "KVERSION" v]
      match check_settings cfg h with
      | some code => (pre, some code)
      | none =>
        match dispatchBranch (PyEnumVal.env cfg.benv) with
        | DispatchBranch.containerSession =>
          (pre ++ [Event.containerStart, Event.containerExec,
                   Event.containerTeardown], none)
        | DispatchBranch.localHost =>
          (pre ++ commandEvents cfg.command, none)
        | DispatchBranch.noArm => (pre, none)

/-- A kernel build request (spec section 3). -/
structure BuildRequest where
  codename : String
  base : EnumKernelBase
  kernelVersion : String
  ksuEnabled : Bool
  defconfigPath : Option String := none
  cleanFirst : Bool

/-- An asset collection request (spec section 3). -/
structure AssetRequest where
  codename : String
  base : EnumKernelBase
  chrootKind : EnumChroot
  romOnly : Bool
  ksuEnabled : Bool
  cleanFirst : Bool

/-- The stages of the KernelBuilder pipeline (spec section 4.4). -/
inductive KernelStage
  | cleanStage
  | resolveStage
  | patchStage
  | configStage
  | buildStage
  | locateStage
deriving DecidableEq

/-- The stages of the AssetsCollector pipeline (spec section 4.5). -/
inductive AssetStage
  | cleanStage
  | resolveReleaseStage
  | downloadRomStage
  | downloadChrootStage
  | ksuAdjustStage
  | assembleStage
deriving DecidableEq

/-- Outcomes of the externally-failing pipeline stages, one flag per stage
(spec sections 4.4 and 4.5): resource fetch, patch application, config
application, build tooling, release resolution and artifact downloads. -/
structure StageWorld where
  resolveOk : Bool
  patchOk : Bool
  configOk : Bool
  buildOk : Bool
  locateOk : Bool
  releaseOk : Bool
  romOk : Bool
  chrootOk : Bool

/-- Whether a KernelBuilder stage performs resource resolution or a network
call: only stage 2 (toolchain and source resolution via the resource
manager, which may fetch from the canonical source) does. -/
def KernelStage.touchesNetwork : KernelStage → Bool
  | KernelStage.resolveStage => true
  | _ => false

/-- Whether an AssetsCollector stage performs a network call: release
resolution against the vendor endpoint and the two artifact downloads do. -/
def AssetStage.touchesNetwork : AssetStage → Bool
  | AssetStage.resolveReleaseStage => true
  | AssetStage.downloadRomStage => true
  | AssetStage.downloadChrootStage => true
  | _ => false

/-- Modelled from the spec: `zkb.core.KernelBuilder` is not among the
sources at hand (only its construction sites are), so the pipeline follows
spec section 4.4: if `cleanFirst`, remove prior build directories and return
success immediately; otherwise run resolve, optional KernelSU patch, config,
build and locate in order, each stage fail-fast. Returns the stages that
executed and whether the pipeline succeeded. -/
def kernelBuilderRun (w : StageWorld) (req : BuildRequest) :
    List KernelStage × Bool :=
  if req.cleanFirst then ([KernelStage.cleanStage], true)
  else if w.resolveOk = false then ([KernelStage.resolveStage], false)
  else if req.ksuEnabled ∧ w.patchOk = false then
    ([KernelStage.resolveStage, KernelStage.patchStage], false)
  else
    let front := KernelStage.resolveStage ::
      (if req.ksuEnabled then [KernelStage.patchStage] else [])
    if w.configOk = false then (front ++ [KernelStage.configStage], false)
    else if w.buildOk = false then
      (front ++ [KernelStage.configStage, KernelStage.buildStage], false)
    else if w.locateOk = false then
      (front ++ [KernelStage.configStage, KernelStage.buildStage,
                 KernelStage.locateStage], false)
    else
      (front ++ [KernelStage.configStage, KernelStage.buildStage,
                 KernelStage.locateStage], true)

/-- Modelled from the spec: `zkb.core.AssetsCollector` is not among the
sources at hand, so the pipeline follows spec section 4.5: if `cleanFirst`,
remove the asset directory and return; otherwise resolve the release,
download the ROM, stop successfully after it if `romOnly`, else download the
chroot, adjust for KernelSU when enabled, and assemble; failures in release
resolution or downloads abort. -/
def assetsCollectorRun (w : StageWorld) (req : AssetRequest) :
    List AssetStage × Bool :=
  if req.cleanFirst then ([AssetStage.cleanStage], true)
  else if w.releaseOk = false then ([AssetStage.resolveReleaseStage], false)
  else if w.romOk = false then
    ([AssetStage.resolveReleaseStage, AssetStage.downloadRomStage], false)
  else if req.romOnly then
    ([AssetStage.resolveReleaseStage, AssetStage.downloadRomStage], true)
  else if w.chrootOk = false then
    ([AssetStage.resolveReleaseStage, AssetStage.downloadRomStage,
      AssetStage.downloadChrootStage], false)
  else
    ([AssetStage.resolveReleaseStage, AssetStage.downloadRomStage,
      AssetStage.downloadChrootStage] ++
     (if req.ksuEnabled then [AssetStage.ksuAdjustStage] else []) ++
     [AssetStage.assembleStage], true)

/-- A resource cache key (spec section 3): kernel base and kernel version. -/
structure ResourceKey where
  base : EnumKernelBase
  kernelVersion : String
deriving DecidableEq

/-- The string value of an `EnumKernelBase` member (`zkb/enums.py`). -/
def EnumKernelBase.value : EnumKernelBase → String
  | EnumKernelBase.LOS => "los"
  | EnumKernelBase.PA => "pa"
  | EnumKernelBase.X => "x"
  | EnumKernelBase.AOSP => "aosp"

/-- Modelled from the spec: the deterministic cache path derived from a
`ResourceKey` (spec section 4.2). -/
def cachePathOf (k : ResourceKey) : String :=
  k.base.value ++ "/" ++ k.kernelVersion

/-- The on-disk resource cache: stored entries, each a key with its path and
whether the copy is currently valid (passes the integrity check). -/
abbrev ResourceCache := List (ResourceKey × String × Bool)

/-- Lookup of a cached entry by key (first match wins). -/
def cacheFind (c : ResourceCache) (k : ResourceKey) : Option (String × Bool) :=
  match c with
  | [] => none
  | (k2, p, ok) :: rest => if k2 = k then some (p, ok) else cacheFind rest k

/-- Reachability of each canonical source and integrity of what it serves
(spec section 4.2). -/
structure FetchWorld where
  reachable : ResourceKey → Bool
  integrityOk : ResourceKey → Bool

/-- Modelled from the spec: the fetch half of `ResourceManager.resolve`
(spec section 4.2): fetch from the canonical source, store under the
deterministic cache path, return it; `none` models `ResourceFetchError`
(source unreachable or integrity verification failed). The `Nat` counts
fetches performed (here exactly one). -/
def resolveFetch (w : FetchWorld) (k : ResourceKey) (c : ResourceCache) :
    Option (String × ResourceCache × Nat) :=
  if w.reachable k ∧ w.integrityOk k then
    some (cachePathOf k, (k, cachePathOf k, true) :: c, 1)
  else none

/-- Modelled from the spec: `zkb.managers.ResourceManager.resolve` is not
among the sources at hand, so it follows spec section 4.2: return the cached
path when a valid copy exists (no fetch), otherwise fetch and store. -/
def resolve (w : FetchWorld) (k : ResourceKey) (c : ResourceCache) :
    Option (String × ResourceCache × Nat) :=
  match cacheFind c k with
  | some (p, true) => some (p, c, 0)
  | some (_, false) => resolveFetch w k c
  | none => resolveFetch w k c

/-- Claim C2: the ParanoidAndroid client's identity resolution returns
"oneplus5t" when the codename is "dumpling", and returns the input codename
unchanged for every codename outside its special-case table (whose keys are
"dumpling" and "cheeseburger"). -/
theorem pa_map_codename_spec :
    (∀ cl : ParanoidAndroidApiClient, cl.codename = "dumpling" →
      cl.map_codename = "oneplus5t") ∧
    (∀ cl : ParanoidAndroidApiClient,
      cl.codename ≠ "dumpling" → cl.codename ≠ "cheeseburger" →
      cl.map_codename = cl.codename) := by
  constructor
  · intro cl hc
    simp [ParanoidAndroidApiClient.map_codename, hc]
  · intro cl h1 h2
    simp [ParanoidAndroidApiClient.map_codename, h1, h2]

/-- Claim C2, witness: concrete evaluations at "dumpling" and at a codename
outside the special-case table. -/
theorem pa_map_codename_spec_witness :
    ({ codename := "dumpling" } : ParanoidAndroidApiClient).map_codename
      = "oneplus5t" ∧
    ({ codename := "sunfish" } : ParanoidAndroidApiClient).map_codename
      = "sunfish" :=
  ⟨pa_map_codename_spec.1 { codename := "dumpling" } rfl,
   pa_map_codename_spec.2 { codename := "sunfish" } (by decide) (by decide)⟩

/-- Claim C6: identity resolution is deterministic and depends only on the
codename: any two client states sharing a codename (regardless of the other
attributes) map it to the same identity, with no external input at all in
the signature of `map_codename`. -/
theorem map_codename_deterministic (a b : ParanoidAndroidApiClient)
    (h : a.codename = b.codename) :
    a.map_codename = b.map_codename := by
  simp [ParanoidAndroidApiClient.map_codename, h]

/-- Claim C6, witness: two client states that differ in every attribute but
the codename resolve it identically. -/
theorem map_codename_deterministic_witness :
    ({ endpoint := "https://mirror.example/updates", json_key := "releases",
       rom_name := EnumKernelBase.AOSP, codename := "dumpling" } :
      ParanoidAndroidApiClient).map_codename =
    ({ codename := "dumpling" } : ParanoidAndroidApiClient).map_codename :=
  map_codename_deterministic _ _ rfl

/-- Claim C5: `EnumEnvironment.from_string` and `EnumKernelBase.from_string`
agree (both look up `EnumCommand[s]`), succeed exactly on the strings
"KERNEL", "ASSETS", "BUNDLE", and on success return an `EnumCommand` member,
which belongs to neither `tuple(EnumEnvironment)` nor `tuple(EnumKernelBase)`
— so the parser's choices check rejects every value of `--build-env` and
`--base`. -/
theorem from_string_never_own_member (s : String) :
    EnumEnvironment.from_string s = EnumKernelBase.from_string s ∧
    ((EnumEnvironment.from_string s).isSome ↔
      s = "KERNEL" ∨ s = "ASSETS" ∨ s = "BUNDLE") ∧
    (∀ v, EnumEnvironment.from_string s = some v →
      (∃ c, v = PyEnumVal.cmd c) ∧ v ∉ benvChoices ∧ v ∉ baseChoices) := by
  refine ⟨rfl, ?_, ?_⟩
  · unfold EnumEnvironment.from_string enumCommandItem
    split_ifs <;> simp_all
  · intro v hv
    unfold EnumEnvironment.from_string enumCommandItem at hv
    split_ifs at hv
    · cases hv; exact ⟨⟨_, rfl⟩, by decide, by decide⟩
    · cases hv; exact ⟨⟨_, rfl⟩, by decide, by decide⟩
    · cases hv; exact ⟨⟨_, rfl⟩, by decide, by decide⟩
    · cases hv

/-- Claim C5, witness: the successful lookup at "KERNEL" yields an
`EnumCommand` member outside both choice tuples. -/
theorem from_string_never_own_member_witness :
    (∃ c, PyEnumVal.cmd EnumCommand.KERNEL = PyEnumVal.cmd c) ∧
    PyEnumVal.cmd EnumCommand.KERNEL ∉ benvChoices ∧
    PyEnumVal.cmd EnumCommand.KERNEL ∉ baseChoices :=
  (from_string_never_own_member "KERNEL").2.2
    (PyEnumVal.cmd EnumCommand.KERNEL) rfl

/-- Claim C10: under a `LOCAL` build environment with the `kernel` or
`bundle` command, the settings check exits with status 1 unless the host is
Linux and `apt --version` succeeds; the `assets` command skips both platform
checks, so under `LOCAL` on any operating system it passes whenever the
codename is in the manifest (here with no defconfig supplied). -/
theorem local_platform_gate (cfg : ArgumentConfig) (h : Host) :
    (cfg.benv = EnumEnvironment.LOCAL →
      (cfg.command = EnumCommand.KERNEL ∨ cfg.command = EnumCommand.BUNDLE) →
      ¬(h.isLinux = true ∧ h.aptOk = true) →
      check_settings cfg h = some 1) ∧
    (cfg.command = EnumCommand.ASSETS →
      cfg.codename ∈ h.devices →
      cfg.defconfig = none →
      check_settings cfg h = none) := by
  constructor
  · intro hbe hcmd hplat
    unfold check_settings
    rw [if_pos ⟨hbe, hcmd⟩]
    cases hl : h.isLinux with
    | false => simp
    | true =>
      cases ha : h.aptOk with
      | false => simp
      | true => exact absurd ⟨hl, ha⟩ hplat
  · intro hcmd hdev hdc
    have hna : ¬(cfg.benv = EnumEnvironment.LOCAL ∧
        (cfg.command = EnumCommand.KERNEL ∨ cfg.command = EnumCommand.BUNDLE)) := by
      rintro ⟨-, hk | hk⟩ <;> simp [hcmd] at hk
    unfold check_settings
    rw [if_neg hna]
    unfold checkSettingsRest
    rw [if_neg (by simp [hdev]), if_neg (by simp [hcmd]), hdc]

/-- Claim C10, witness: on a non-Linux host, a `LOCAL` kernel build is
rejected with exit status 1 while a `LOCAL` asset collection for a supported
codename passes. -/
theorem local_platform_gate_witness :
    check_settings
      { benv := EnumEnvironment.LOCAL, command := EnumCommand.KERNEL,
        codename := "dumpling", base := "los" }
      { isLinux := false, aptOk := false, devices := ["dumpling"],
        isFile := fun _ => true, pyproject := "" } = some 1 ∧
    check_settings
      { benv := EnumEnvironment.LOCAL, command := EnumCommand.ASSETS,
        codename := "dumpling", base := "los" }
      { isLinux := false, aptOk := false, devices := ["dumpling"],
        isFile := fun _ => true, pyproject := "" } = none :=
  ⟨(local_platform_gate _ _).1 rfl (Or.inl rfl) (by decide),
   (local_platform_gate _ _).2 rfl (by decide) rfl⟩

/-- Claim C3: when the codename is not a key of the device manifest, the
settings check exits with status 1 (whichever branch fires first, every exit
of `check_settings` carries status 1), and `main` therefore ends right after
storing `KVERSION`: its event trace holds no pipeline or container-session
event at all. -/
theorem unsupported_codename_rejected (cfg : ArgumentConfig) (h : Host)
    (v : String) (hc : cfg.codename ∉ h.devices)
    (hv : kversionOf h.pyproject = some v) :
    check_settings cfg h = some 1 ∧
    mainRun cfg false h = ([Event.chdir, Event.envSet "KVERSION" v], some 1) ∧
    (mainRun cfg false h).1.filter Event.isPipeline = [] := by
  have hrest : checkSettingsRest cfg h = some 1 := by
    unfold checkSettingsRest
    rw [if_pos hc]
  have hchk : check_settings cfg h = some 1 := by
    unfold check_settings
    split_ifs with h1 h2 h3
    · rfl
    · rfl
    · exact hrest
    · exact hrest
  refine ⟨hchk, ?_, ?_⟩ <;>
    simp [mainRun, hv, hchk, Event.isPipeline]

/-- Claim C3, witness: an unsupported codename against a one-device manifest
is rejected before any pipeline event. -/
theorem unsupported_codename_rejected_witness :
    check_settings
      { benv := EnumEnvironment.DOCKER, command := EnumCommand.ASSETS,
        codename := "unknown-device", base := "los" }
      { isLinux := true, aptOk := true, devices := ["dumpling"],
        isFile := fun _ => true,
        pyproject := "name = \"zero-kernel\"\nversion = \"0.5.1\"\n" }
      = some 1 ∧
    mainRun
      { benv := EnumEnvironment.DOCKER, command := EnumCommand.ASSETS,
        codename := "unknown-device", base := "los" }
      false
      { isLinux := true, aptOk := true, devices := ["dumpling"],
        isFile := fun _ => true,
        pyproject := "name = \"zero-kernel\"\nversion = \"0.5.1\"\n" }
      = ([Event.chdir, Event.envSet "KVERSION" "0.5.1"], some 1) ∧
    (mainRun
      { benv := EnumEnvironment.DOCKER, command := EnumCommand.ASSETS,
        codename := "unknown-device", base := "los" }
      false
      { isLinux := true, aptOk := true, devices := ["dumpling"],
        isFile := fun _ => true,
        pyproject := "name = \"zero-kernel\"\nversion = \"0.5.1\"\n" }).1.filter
        Event.isPipeline = [] :=
  unsupported_codename_rejected _ _ "0.5.1" (by decide) (by decide)

/-- Claim C4: a `bundle` configuration with a non-Conan package type and
Conan upload requested is rejected by the settings check with exit status 1
(every exit of `check_settings` carries status 1), so no pipeline or
container-session event occurs. -/
theorem conan_upload_rejected (cfg : ArgumentConfig) (h : Host) (v : String)
    (hb : cfg.command = EnumCommand.BUNDLE)
    (hp : cfg.package_type ≠ some EnumPackageType.CONAN)
    (hu : cfg.conan_upload = true)
    (hv : kversionOf h.pyproject = some v) :
    check_settings cfg h = some 1 ∧
    mainRun cfg false h = ([Event.chdir, Event.envSet "KVERSION" v], some 1) ∧
    (mainRun cfg false h).1.filter Event.isPipeline = [] := by
  have hrest : checkSettingsRest cfg h = some 1 := by
    unfold checkSettingsRest
    by_cases h1 : cfg.codename ∉ h.devices
    · rw [if_pos h1]
    · rw [if_neg h1, if_pos ⟨hb, hp, hu⟩]
  have hchk : check_settings cfg h = some 1 := by
    unfold check_settings
    split_ifs with h1 h2 h3
    · rfl
    · rfl
    · exact hrest
    · exact hrest
  refine ⟨hchk, ?_, ?_⟩ <;>
    simp [mainRun, hv, hchk, Event.isPipeline]

/-- Claim C4, witness: a bundle request with `SLIM` packaging and
`--conan-upload` is rejected before any pipeline event. -/
theorem conan_upload_rejected_witness :
    check_settings
      { benv := EnumEnvironment.DOCKER, command := EnumCommand.BUNDLE,
        codename := "dumpling", base := "los",
        package_type := some EnumPackageType.SLIM, conan_upload := true }
      { isLinux := true, aptOk := true, devices := ["dumpling"],
        isFile := fun _ => true,
        pyproject := "name = \"zero-kernel\"\nversion = \"0.5.1\"\n" }
      = some 1 ∧
    mainRun
      { benv := EnumEnvironment.DOCKER, command := EnumCommand.BUNDLE,
        codename := "dumpling", base := "los",
        package_type := some EnumPackageType.SLIM, conan_upload := true }
      false
      { isLinux := true, aptOk := true, devices := ["dumpling"],
        isFile := fun _ => true,
        pyproject := "name = \"zero-kernel\"\nversion = \"0.5.1\"\n" }
      = ([Event.chdir, Event.envSet "KVERSION" "0.5.1"], some 1) ∧
    (mainRun
      { benv := EnumEnvironment.DOCKER, command := EnumCommand.BUNDLE,
        codename := "dumpling", base := "los",
        package_type := some EnumPackageType.SLIM, conan_upload := true }
      false
      { isLinux := true, aptOk := true, devices := ["dumpling"],
        isFile := fun _ => true,
        pyproject := "name = \"zero-kernel\"\nversion = \"0.5.1\"\n" }).1.filter
        Event.isPipeline = [] :=
  conan_upload_rejected _ _ "0.5.1" rfl (by decide) rfl (by decide)

/-- Claim C9: before anything is dispatched, `main` stores exactly one
environment variable: the first two events of its trace are the directory
change and the `KVERSION` store with the version parsed from
`pyproject.toml`, the remainder of the trace stores no further environment
variable, and the whole trace holds exactly that one store — so the store
precedes every pipeline or container-session event. -/
theorem kversion_env_set_once (cfg : ArgumentConfig) (h : Host) (v : String)
    (hv : kversionOf h.pyproject = some v) :
    (mainRun cfg false h).1.take 2 =
      [Event.chdir, Event.envSet "KVERSION" v] ∧
    ((mainRun cfg false h).1.drop 2).filter Event.isEnvSet = [] ∧
    (mainRun cfg false h).1.filter Event.isEnvSet =
      [Event.envSet "KVERSION" v] := by
  cases hchk : check_settings cfg h with
  | some code =>
    refine ⟨?_, ?_, ?_⟩ <;> simp [mainRun, hv, hchk, Event.isEnvSet]
  | none =>
    cases hb : cfg.benv with
    | LOCAL =>
      cases hc : cfg.command <;>
        (refine ⟨?_, ?_, ?_⟩ <;>
          simp [mainRun, hv, hchk, hb, hc, dispatchBranch, commandEvents,
                Event.isEnvSet])
    | DOCKER =>
      refine ⟨?_, ?_, ?_⟩ <;>
        simp [mainRun, hv, hchk, hb, dispatchBranch, Event.isEnvSet]
    | PODMAN =>
      refine ⟨?_, ?_, ?_⟩ <;>
        simp [mainRun, hv, hchk, hb, dispatchBranch, Event.isEnvSet]

/-- Claim C9, witness: a concrete run stores `KVERSION = 0.5.1` as its
second event and nowhere else. -/
theorem kversion_env_set_once_witness :
    (mainRun
      { benv := EnumEnvironment.LOCAL, command := EnumCommand.ASSETS,
        codename := "dumpling", base := "los" }
      false
      { isLinux := true, aptOk := true, devices := ["dumpling"],
        isFile := fun _ => true,
        pyproject := "name = \"zero-kernel\"\nversion = \"0.5.1\"\n" }).1.take 2
      = [Event.chdir, Event.envSet "KVERSION" "0.5.1"] ∧
    ((mainRun
      { benv := EnumEnvironment.LOCAL, command := EnumCommand.ASSETS,
        codename := "dumpling", base := "los" }
      false
      { isLinux := true, aptOk := true, devices := ["dumpling"],
        isFile := fun _ => true,
        pyproject := "name = \"zero-kernel\"\nversion = \"0.5.1\"\n" }).1.drop
        2).filter Event.isEnvSet = [] ∧
    (mainRun
      { benv := EnumEnvironment.LOCAL, command := EnumCommand.ASSETS,
        codename := "dumpling", base := "los" }
      false
      { isLinux := true, aptOk := true, devices := ["dumpling"],
        isFile := fun _ => true,
        pyproject := "name = \"zero-kernel\"\nversion = \"0.5.1\"\n" }).1.filter
        Event.isEnvSet = [Event.envSet "KVERSION" "0.5.1"] :=
  kversion_env_set_once _ _ "0.5.1" (by decide)

/-- Claim C1: refuted on the dispatch of `main`. The `match args.benv`
compares the `EnumEnvironment` value against `EnumContainerEnvironment`
patterns, and Python enum members of distinct classes are never equal, so no
`EnumEnvironment` value ever selects the container arm; for `DOCKER` or
`PODMAN` (with the settings check passing) `main` falls through both arms
and returns having run nothing: no container session is started or torn
down and no pipeline stage executes. -/
theorem container_env_runs_nothing (cfg : ArgumentConfig) (h : Host)
    (v : String)
    (hb : cfg.benv = EnumEnvironment.DOCKER ∨ cfg.benv = EnumEnvironment.PODMAN)
    (hv : kversionOf h.pyproject = some v)
    (hchk : check_settings cfg h = none) :
    dispatchBranch (PyEnumVal.env cfg.benv) = DispatchBranch.noArm ∧
    mainRun cfg false h = ([Event.chdir, Event.envSet "KVERSION" v], none) ∧
    (mainRun cfg false h).1.filter Event.isPipeline = [] := by
  rcases hb with hb | hb <;>
    (refine ⟨?_, ?_, ?_⟩ <;>
      simp [mainRun, hv, hchk, hb, dispatchBranch, Event.isPipeline])

/-- Claim C1, witness: a Docker build environment with a supported codename
runs neither a container session nor any pipeline command. -/
theorem container_env_runs_nothing_witness :
    mainRun
      { benv := EnumEnvironment.DOCKER, command := EnumCommand.KERNEL,
        codename := "dumpling", base := "los" }
      false
      { isLinux := true, aptOk := true, devices := ["dumpling"],
        isFile := fun _ => true,
        pyproject := "name = \"zero-kernel\"\nversion = \"0.5.1\"\n" }
      = ([Event.chdir, Event.envSet "KVERSION" "0.5.1"], none) ∧
    (mainRun
      { benv := EnumEnvironment.DOCKER, command := EnumCommand.KERNEL,
        codename := "dumpling", base := "los" }
      false
      { isLinux := true, aptOk := true, devices := ["dumpling"],
        isFile := fun _ => true,
        pyproject := "name = \"zero-kernel\"\nversion = \"0.5.1\"\n" }).1.filter
        Event.isPipeline = [] :=
  ⟨(container_env_runs_nothing _ _ "0.5.1" (Or.inl rfl) (by decide)
      (by decide)).2.1,
   (container_env_runs_nothing _ _ "0.5.1" (Or.inl rfl) (by decide)
      (by decide)).2.2⟩

/-- Claim C7: a request with `cleanFirst` makes the KernelBuilder
(respectively AssetsCollector) pipeline run only its cleaning stage and
return success immediately: whatever the outcomes of the external stages
would have been, the executed stage list is exactly the cleaning stage, so
no resource resolution, no network call and no later stage occurs. -/
theorem clean_first_short_circuits (w : StageWorld) (breq : BuildRequest)
    (areq : AssetRequest) (hk : breq.cleanFirst = true)
    (ha : areq.cleanFirst = true) :
    kernelBuilderRun w breq = ([KernelStage.cleanStage], true) ∧
    assetsCollectorRun w areq = ([AssetStage.cleanStage], true) ∧
    (kernelBuilderRun w breq).1.filter KernelStage.touchesNetwork = [] ∧
    (assetsCollectorRun w areq).1.filter AssetStage.touchesNetwork = [] := by
  refine ⟨?_, ?_, ?_, ?_⟩ <;>
    simp [kernelBuilderRun, assetsCollectorRun, hk, ha,
          KernelStage.touchesNetwork, AssetStage.touchesNetwork]

/-- Claim C7, witness: with every external stage set to fail, a
`cleanFirst` build request and a `cleanFirst` asset request still both
succeed immediately with only their cleaning stage executed. -/
theorem clean_first_short_circuits_witness :
    kernelBuilderRun
      { resolveOk := false, patchOk := false, configOk := false,
        buildOk := false, locateOk := false, releaseOk := false,
        romOk := false, chrootOk := false }
      { codename := "dumpling", base := EnumKernelBase.PA,
        kernelVersion := "5.10", ksuEnabled := true, cleanFirst := true }
      = ([KernelStage.cleanStage], true) ∧
    assetsCollectorRun
      { resolveOk := false, patchOk := false, configOk := false,
        buildOk := false, locateOk := false, releaseOk := false,
        romOk := false, chrootOk := false }
      { codename := "dumpling", base := EnumKernelBase.PA,
        chrootKind := EnumChroot.FULL, romOnly := false,
        ksuEnabled := true, cleanFirst := true }
      = ([AssetStage.cleanStage], true) ∧
    (kernelBuilderRun
      { resolveOk := false, patchOk := false, configOk := false,
        buildOk := false, locateOk := false, releaseOk := false,
        romOk := false, chrootOk := false }
      { codename := "dumpling", base := EnumKernelBase.PA,
        kernelVersion := "5.10", ksuEnabled := true,
        cleanFirst := true }).1.filter KernelStage.touchesNetwork = [] ∧
    (assetsCollectorRun
      { resolveOk := false, patchOk := false, configOk := false,
        buildOk := false, locateOk := false, releaseOk := false,
        romOk := false, chrootOk := false }
      { codename := "dumpling", base := EnumKernelBase.PA,
        chrootKind := EnumChroot.FULL, romOnly := false,
        ksuEnabled := true, cleanFirst := true }).1.filter
        AssetStage.touchesNetwork = [] :=
  clean_first_short_circuits _ _ _ rfl rfl

/-- Helper for claim C8: after a successful fetch-and-store, the key is
validly cached, so a second resolution is a cache hit on the same path with
no further fetch; a single fetch counts one. -/
theorem resolveFetch_then_cached (w : FetchWorld) (k : ResourceKey)
    (c : ResourceCache) (p : String) (c2 : ResourceCache) (n : Nat)
    (hres : resolveFetch w k c = some (p, c2, n)) :
    resolve w k c2 = some (p, c2, 0) ∧ n ≤ 1 := by
  unfold resolveFetch at hres
  split_ifs at hres with hw
  · simp only [Option.some.injEq, Prod.mk.injEq] at hres
    obtain ⟨hp, hc2, hn⟩ := hres
    subst hp
    subst hc2
    subst hn
    refine ⟨?_, le_refl 1⟩
    simp [resolve, cacheFind]

/-- Claim C8: resolution is idempotent. If `resolve` succeeds on a key, a
second call with the resulting cache state returns the same path, leaves the
cache unchanged, and performs no fetch; the first call performs at most one
fetch, so two calls without invalidation perform at most one fetch in
total. -/
theorem resolve_idempotent (w : FetchWorld) (k : ResourceKey)
    (c : ResourceCache) (p : String) (c2 : ResourceCache) (n : Nat)
    (hres : resolve w k c = some (p, c2, n)) :
    resolve w k c2 = some (p, c2, 0) ∧ n ≤ 1 := by
  unfold resolve at hres
  rcases hfind : cacheFind c k with _ | ⟨p0, b⟩
  · rw [hfind] at hres
    exact resolveFetch_then_cached w k c p c2 n hres
  · cases b with
    | false =>
      rw [hfind] at hres
      exact resolveFetch_then_cached w k c p c2 n hres
    | true =>
      rw [hfind] at hres
      simp only [Option.some.injEq, Prod.mk.injEq] at hres
      obtain ⟨hp, hc2, hn⟩ := hres
      subst hp
      subst hc2
      subst hn
      refine ⟨?_, Nat.zero_le 1⟩
      unfold resolve
      rw [hfind]

/-- Claim C8, witness: resolving `(LOS, 5.10)` against an empty cache
fetches once and stores `los/5.10`; the theorem then yields that the second
resolution returns the same path with no fetch. -/
theorem resolve_idempotent_witness :
    resolve
      { reachable := fun _ => true, integrityOk := fun _ => true }
      { base := EnumKernelBase.LOS, kernelVersion := "5.10" }
      [({ base := EnumKernelBase.LOS, kernelVersion := "5.10" },
        "los/5.10", true)]
      = some ("los/5.10",
          [({ base := EnumKernelBase.LOS, kernelVersion := "5.10" },
            "los/5.10", true)], 0) ∧
    1 ≤ 1 :=
  resolve_idempotent
    { reachable := fun _ => true, integrityOk := fun _ => true }
    { base := EnumKernelBase.LOS, kernelVersion := "5.10" }
    [] "los/5.10"
    [({ base := EnumKernelBase.LOS, kernelVersion := "5.10" },
      "los/5.10", true)]
    1 (by decide)
